import Mathlib

/-!
Shallow embedding of the real-time update client of `aimultibox`
(`src/frontend/src/hooks/useSSE.ts`, consumer adapter in
`useCurrencyData` / `useNotification`).

Conventions of the embedding:
* JS `Set` objects (the per-kind handler sets) are modelled the way the
  ECMAScript specification describes them: an insertion-ordered entry list
  in which `delete` empties the matching entry (leaving a hole) and `add`
  appends a fresh entry when no live entry is equal to the value.  We use
  `List (Option Nat)` where `none` is an emptied entry and handlers are
  identified by numeric ids.
* `Set.forEach` (used by `dispatchEvent`) iterates this live entry list by
  index: entries emptied before being visited are skipped, entries appended
  during the iteration are visited.  Because a JS `forEach` loop can be made
  to run forever by handlers that keep re-adding deleted entries, the loop
  below takes fuel; the canonical fuel (entry count plus the total number of
  subscribe actions the handler table can perform) is exact for every run in
  which each subscribed handler executes at most once, which covers every
  behaviour claimed in the specification.
* JS numbers are modelled by `ℚ`.  The backoff computation
  `Math.min(3000 * Math.pow(1.5, n-1), 30000)` is exact in binary floating
  point for `n ≤ 7` (powers of `3/2` are dyadic rationals well inside the
  53-bit mantissa), and for `n ≥ 7` both the double and the rational
  computation are clamped to `30000` by `Math.min`, so the rational model
  agrees with the JS double semantics at every attempt count.
* Timers (`window.setTimeout` / `clearTimeout`) are modelled by a list of
  pending `(timerId, delay)` pairs plus the `reconnectTimeoutRef` cell that
  stores the id of the most recently scheduled timer.
-/

/-- The closed set of event kinds (`SSEEventType` in `useSSE.ts`). -/
inductive SSEEventType where
  | connected
  | rates_updated
  | alert_triggered
deriving DecidableEq, Repr

/-- Payload of an `alert_triggered` frame (`SSEEventData['alert_triggered']`). -/
structure AlertPayload where
  event_id : Int
  alert_id : Int
  condition : String
  threshold : ℚ
  current_rate : ℚ
  currency_pair : String
  triggered_at : String
deriving DecidableEq, Repr

/-- A decoded frame payload (the `data` value handed to `dispatchEvent`). -/
inductive Payload where
  | alert (a : AlertPayload)
  | rates (timestamp source : String) (count : Nat)
  | client (client_id : String)
  | other (raw : String)
deriving DecidableEq, Repr

/-- One ECMAScript `Set` of handlers for a kind: insertion-ordered entries,
`none` marking an entry emptied by `delete`. -/
abbrev Entries := List (Option Nat)

/-- `Set.prototype.add`: a no-op when a live entry already holds the value,
otherwise appends a fresh entry. -/
def addEntry (es : Entries) (h : Nat) : Entries :=
  if some h ∈ es then es else es ++ [some h]

/-- `Set.prototype.delete`: empties the entry holding the value (the entry
slot stays, as in the ECMAScript specification). -/
def delEntry (es : Entries) (h : Nat) : Entries :=
  es.map (fun e => if e = some h then none else e)

/-- An effect a handler can perform, as visible to this core: mutate the
registry (`on` / `off` of `useSSE`), request a cache invalidation
(`queryClient.invalidateQueries`), or request a browser notification
(identified by its dedupe tag). -/
inductive RegAction where
  | subAct (k : SSEEventType) (h : Nat)
  | unsubAct (k : SSEEventType) (h : Nat)
  | invalidate (key : List String)
  | notifyTag (tag : String)
deriving DecidableEq, Repr

/-- The observable behaviour of one handler: the effects it performs when
called, and whether it then throws synchronously. -/
structure HandlerSpec where
  acts : List RegAction
  throws : Bool
deriving Repr

/-- Handler table: associates handler ids with their behaviour. -/
abbrev Env := List (Nat × HandlerSpec)

/-- A handler id not in the table behaves as a no-op. -/
def findSpec (env : Env) (h : Nat) : HandlerSpec :=
  ((env.find? (fun p => p.1 = h)).map (fun p => p.2)).getD ⟨[], false⟩

/-- State of the dispatch registry together with the consumer-visible effect
log: `registry` is `handlersRef.current` (a kind that was never subscribed
maps to the empty entry list, indistinguishable from an absent `Map` key),
`log` records each handler invocation with the payload it received,
`handlerErrors` counts `console.error` calls from the `catch` inside
`dispatchEvent`, and `invalidations` / `notifications` record consumer
adapter effects. -/
structure DState where
  registry : SSEEventType → Entries
  log : List (Nat × Payload)
  handlerErrors : Nat
  invalidations : List (List String)
  notifications : List String

/-- `on(eventType, handler)` of `useSSE`. -/
def onReg (k : SSEEventType) (h : Nat) (s : DState) : DState :=
  { s with registry := fun k2 => if k2 = k then addEntry (s.registry k) h else s.registry k2 }

/-- `off(eventType, handler)` of `useSSE`. -/
def offReg (k : SSEEventType) (h : Nat) (s : DState) : DState :=
  { s with registry := fun k2 => if k2 = k then delEntry (s.registry k) h else s.registry k2 }

/-- Interpretation of one handler effect. -/
def runAct (s : DState) (a : RegAction) : DState :=
  match a with
  | .subAct k h => onReg k h s
  | .unsubAct k h => offReg k h s
  | .invalidate key => { s with invalidations := s.invalidations ++ [key] }
  | .notifyTag tag => { s with notifications := s.notifications ++ [tag] }

/-- Interpretation of a handler body: its effects in order. -/
def runActs (as : List RegAction) (s : DState) : DState :=
  as.foldl runAct s

/-- The `handlers.forEach` loop of `dispatchEvent`: visit the live entry
list by index; a visited `some` entry logs the invocation, runs the
handler's effects and, when the handler throws, logs the caught error
(`console.error`) and continues — the `try`/`catch` keeps the loop alive. -/
def visitStep (env : Env) (p : Payload) (hid : Nat) (s : DState) : DState :=
  let spec := findSpec env hid
  let s1 := { s with log := s.log ++ [(hid, p)] }
  let s2 := runActs spec.acts s1
  if spec.throws then { s2 with handlerErrors := s2.handlerErrors + 1 } else s2

def dispatchLoop (env : Env) (k : SSEEventType) (p : Payload) :
    Nat → Nat → DState → DState
  | 0, _, s => s
  | fuel + 1, i, s =>
    if i < (s.registry k).length then
      match (s.registry k).getD i none with
      | none => dispatchLoop env k p fuel (i + 1) s
      | some hid => dispatchLoop env k p fuel (i + 1) (visitStep env p hid s)
    else s

/-- Number of subscribe effects a handler table can perform in total. -/
def totalSubs (env : Env) : Nat :=
  (env.map (fun pr => pr.2.acts.countP (fun a =>
    match a with
    | .subAct _ _ => true
    | _ => false))).sum

/-- `dispatchEvent(eventType, data)` of `useSSE`: iterate the live handler
set for the kind.  The fuel is exact whenever every subscribed handler
executes at most once during the pass (each loop step either exits or
advances the index by one, and the entry list grows by at most one per
subscribe effect). -/
def dispatchEvent (env : Env) (k : SSEEventType) (p : Payload) (s : DState) : DState :=
  dispatchLoop env k p ((s.registry k).length + totalSubs env) 0 s

/-- Connection-manager state (`useSSE`): `source` is `eventSourceRef.current`
(transports numbered by creation), `live` the set of created transports not
yet closed, `attempts` is `reconnectAttemptsRef.current`, `timeoutRef` is
`reconnectTimeoutRef.current` (id of the most recently scheduled timer),
`pending` the timers scheduled but neither fired nor cleared, and
`connects` counts executions of `connect()`. -/
structure ConnState where
  source : Option Nat
  nextSource : Nat
  live : List Nat
  attempts : Nat
  timeoutRef : Option Nat
  pending : List (Nat × ℚ)
  nextTimer : Nat
  isConnected : Bool
  connects : Nat
deriving DecidableEq, Repr

/-- `RECONNECT_DELAY_MS` (3000). -/
def RECONNECT_DELAY_MS : ℚ := 3000

/-- `MAX_RECONNECT_DELAY_MS` (30000). -/
def MAX_RECONNECT_DELAY_MS : ℚ := 30000

/-- The backoff delay scheduled inside `onerror` after the `attempt`-th
consecutive error: `Math.min(RECONNECT_DELAY_MS * Math.pow(1.5, attempt - 1),
MAX_RECONNECT_DELAY_MS)`. -/
def reconnectDelay (attempt : Nat) : ℚ :=
  min (RECONNECT_DELAY_MS * (3 / 2 : ℚ) ^ (attempt - 1)) MAX_RECONNECT_DELAY_MS

/-- Body of `connect()`: close the transport currently held by
`eventSourceRef` (if any), then create and store a fresh one.  Note that
`connect()` touches neither the attempt counter nor the pending timers. -/
def connectBody (s : ConnState) : ConnState :=
  let live1 := match s.source with
    | some t => s.live.erase t
    | none => s.live
  { s with
    source := some s.nextSource
    nextSource := s.nextSource + 1
    live := live1 ++ [s.nextSource]
    connects := s.connects + 1 }

/-- External stimuli of the connection manager: an explicit `connect()`
call, the transport `onopen` / `onerror` callbacks, a scheduled backoff
timer firing, the manual `reconnect()`, and `disconnect()`. -/
inductive CEvent where
  | connectCall
  | openEvt
  | errorEvt
  | fireTimer (tid : Nat)
  | reconnectCall
  | disconnectCall
deriving DecidableEq, Repr

/-- Whether a stimulus can occur in a state: transport callbacks need a
transport, a timer can only fire while it is pending. -/
def CEvent.enabled : CEvent → ConnState → Bool
  | .connectCall, _ => true
  | .openEvt, s => s.source.isSome
  | .errorEvt, s => s.source.isSome
  | .fireTimer tid, s => s.pending.any (fun td => td.1 = tid)
  | .reconnectCall, _ => true
  | .disconnectCall, _ => true

/-- Effect of each stimulus, transcribed from `useSSE.ts`:
`onopen` resets the attempt counter and sets `isConnected`; `onerror`
clears `isConnected`, increments the attempt counter and schedules a
single backoff timer (storing its id in `reconnectTimeoutRef`); a firing
timer removes itself from the pending set and runs `connect`;
`reconnect()` resets the attempt counter and runs `connect` synchronously
— it does not touch the pending timers; `disconnect()` clears the timer
referenced by `reconnectTimeoutRef`, closes the transport and clears
`isConnected`. -/
def CEvent.step : CEvent → ConnState → ConnState
  | .connectCall, s => connectBody s
  | .openEvt, s => { s with attempts := 0, isConnected := true }
  | .errorEvt, s =>
    let att := s.attempts + 1
    { s with
      isConnected := false
      attempts := att
      pending := s.pending ++ [(s.nextTimer, reconnectDelay att)]
      timeoutRef := some s.nextTimer
      nextTimer := s.nextTimer + 1 }
  | .fireTimer tid, s =>
    connectBody { s with pending := s.pending.filter (fun td => td.1 ≠ tid) }
  | .reconnectCall, s => connectBody { s with attempts := 0 }
  | .disconnectCall, s =>
    let s1 := match s.timeoutRef with
      | some tid =>
        { s with pending := s.pending.filter (fun td => td.1 ≠ tid), timeoutRef := none }
      | none => s
    let live1 := match s1.source with
      | some t => s1.live.erase t
      | none => s1.live
    { s1 with live := live1, source := none, isConnected := false }

/-- The state of a freshly mounted hook, before the effect runs. -/
def initConn : ConnState :=
  { source := none
    nextSource := 0
    live := []
    attempts := 0
    timeoutRef := none
    pending := []
    nextTimer := 0
    isConnected := false
    connects := 0 }

/-- Run a sequence of stimuli. -/
def runEvents (es : List CEvent) (s : ConnState) : ConnState :=
  es.foldl (fun s2 e => e.step s2) s

/-- States the connection manager can actually be in. -/
def ReachableConn (s : ConnState) : Prop :=
  ∃ es : List CEvent, runEvents es initConn = s

/-- `sendAlertNotification` of `useCurrencyData`, reduced to its observable
decision: it returns the dedupe tag `alert-${alert.alert_id}-${Date.now()}`
exactly when both the browser permission ref and the local
`notificationEnabled` ref are set, and otherwise returns early. -/
def sendAlertTag (isGranted notificationEnabled : Bool) (a : AlertPayload)
    (now : Nat) : Option String :=
  if isGranted && notificationEnabled then
    some ("alert-" ++ toString a.alert_id ++ "-" ++ toString now)
  else
    none

/-- Behaviour of `handleAlertTriggered` (the `alert_triggered` consumer in
`useCurrencyData`): it only calls `sendAlertNotification`. -/
def alertHandlerSpec (isGranted notificationEnabled : Bool) (a : AlertPayload)
    (now : Nat) : HandlerSpec :=
  { acts := ((sendAlertTag isGranted notificationEnabled a now).map RegAction.notifyTag).toList
    throws := false }

/-- Behaviour of `handleRatesUpdated` (the `rates_updated` consumer in
`useCurrencyData`): refetch rates and invalidate the summary query key. -/
def ratesHandlerSpec : HandlerSpec :=
  { acts := [RegAction.invalidate ["currency", "summary"]]
    throws := false }

/-- Full client state: connection manager, dispatch registry, and the count
of `console.error` calls made by the frame listener's `catch` around
`JSON.parse`. -/
structure FullState where
  conn : ConnState
  disp : DState
  parseErrors : Nat

/-- The per-kind frame listener installed by `connect()`:
`JSON.parse(event.data)` either yields a payload (`some`) and the frame is
dispatched, or throws (`none`) and the listener logs the error and does
nothing else. -/
def processFrame (env : Env) (k : SSEEventType) (parsed : Option Payload)
    (fs : FullState) : FullState :=
  match parsed with
  | none => { fs with parseErrors := fs.parseErrors + 1 }
  | some d => { fs with disp := dispatchEvent env k d fs.disp }

/-- An effect that does not mutate the subscriber registry. -/
def regFreeAct (a : RegAction) : Bool :=
  match a with
  | .subAct _ _ => false
  | .unsubAct _ _ => false
  | .invalidate _ => true
  | .notifyTag _ => true

/-- A handler that never subscribes or unsubscribes anything. -/
def regFreeSpec (spec : HandlerSpec) : Bool :=
  spec.acts.all regFreeAct

/-- A handler table whose handlers never mutate the registry. -/
def regFreeEnv (env : Env) : Bool :=
  env.all (fun pr => regFreeSpec pr.2)

/-- Handler ids of the not-yet-visited live entries, starting at index `i`. -/
def idsFrom (es : Entries) (i : Nat) : List Nat :=
  (es.drop i).filterMap id

/-- A fresh dispatch state over a given registry (no invocations or
consumer effects recorded yet). -/
def dInit (reg : SSEEventType → Entries) : DState :=
  { registry := reg, log := [], handlerErrors := 0, invalidations := [], notifications := [] }

/-- Connection-manager invariant: the live transports are exactly the one
held by `eventSourceRef` (so there is at most one), and transport ids held
by the ref were actually allocated. -/
def ConnInv (s : ConnState) : Prop :=
  s.live = s.source.toList ∧ ∀ t, s.source = some t → t < s.nextSource

/-- Scenario for C1: mount (`connect()`), then one transport error — a
backoff timer (id 0, delay 3000 ms) is now pending. -/
def c1pendingState : ConnState :=
  runEvents [CEvent.connectCall, CEvent.errorEvt] initConn

/-- Scenario for C1: the user calls `reconnect()` while that timer is
pending. -/
def c1afterReconnect : ConnState :=
  CEvent.reconnectCall.step c1pendingState

/-- Scenario for C3: handlers `a` and `b` subscribed to `rates_updated`
in this order. -/
def c3reg (a b : Nat) : SSEEventType → Entries := fun k =>
  match k with
  | SSEEventType.rates_updated => [some a, some b]
  | _ => []

/-- Scenario for C3: handler `a` unsubscribes `b` from within its own
execution; `b` is a plain handler. -/
def c3env (a b : Nat) : Env :=
  [(a, { acts := [RegAction.unsubAct SSEEventType.rates_updated b], throws := false }),
   (b, { acts := [], throws := false })]

/-- A sample payload for dispatch scenarios. -/
def cPayload : Payload := Payload.client "c"

/-- The `alert_triggered` payload of the specification's end-to-end
property (C4): alert 7, `rate_above` 150, current rate 151.2, `JPY_CNY`. -/
def c4payload : AlertPayload :=
  { event_id := 1
    alert_id := 7
    condition := "rate_above"
    threshold := 150
    current_rate := 756 / 5
    currency_pair := "JPY_CNY"
    triggered_at := "" }

/-- Registry as set up by `useCurrencyData`: the rates consumer subscribed
to `rates_updated` and the alert consumer subscribed to `alert_triggered`. -/
def c4reg : SSEEventType → Entries := fun k =>
  match k with
  | SSEEventType.alert_triggered => [some 0]
  | SSEEventType.rates_updated => [some 1]
  | _ => []

/-- Handler table for C4: permission granted and notifications enabled. -/
def c4env (now : Nat) : Env :=
  [(0, alertHandlerSpec true true c4payload now), (1, ratesHandlerSpec)]

/-- Scenario for C5: handler 0 throws synchronously, handler 1 is a plain
handler; both subscribed to the same kind. -/
def c5env : Env :=
  [(0, { acts := [], throws := true }), (1, { acts := [], throws := false })]

/-- Registry for the C5 scenario. -/
def c5reg : SSEEventType → Entries := fun k =>
  match k with
  | SSEEventType.rates_updated => [some 0, some 1]
  | _ => []

/-- Registry for the C10 scenario: only the alert consumer subscribed. -/
def c10reg : SSEEventType → Entries := fun k =>
  match k with
  | SSEEventType.alert_triggered => [some 0]
  | _ => []

/-- Handler table for C10, with the two gating flags left free. -/
def c10env (isGranted notificationEnabled : Bool) (a : AlertPayload) (now : Nat) : Env :=
  [(0, alertHandlerSpec isGranted notificationEnabled a now)]

theorem findSpec_regFree (env : Env) (h : Nat) (he : regFreeEnv env = true) :
    regFreeSpec (findSpec env h) = true := by
  unfold findSpec
  cases hf : env.find? (fun p => p.1 = h) with
  | none => rfl
  | some pr =>
    have hm : pr ∈ env := List.mem_of_find?_eq_some hf
    exact List.all_eq_true.mp he pr hm

theorem runAct_regFree (s : DState) (a : RegAction) (ha : regFreeAct a = true) :
    (runAct s a).registry = s.registry ∧ (runAct s a).log = s.log ∧
      (runAct s a).handlerErrors = s.handlerErrors := by
  cases a <;> simp_all [runAct, regFreeAct]

theorem runActs_regFree (as : List RegAction) (s : DState)
    (ha : as.all regFreeAct = true) :
    (runActs as s).registry = s.registry ∧ (runActs as s).log = s.log ∧
      (runActs as s).handlerErrors = s.handlerErrors := by
  induction as generalizing s with
  | nil => simp [runActs]
  | cons a t ih =>
    simp only [List.all_cons, Bool.and_eq_true] at ha
    have h1 := runAct_regFree s a ha.1
    have h2 := ih (runAct s a) ha.2
    simp only [runActs, List.foldl_cons] at h2 ⊢
    exact ⟨h2.1.trans h1.1, h2.2.1.trans h1.2.1, h2.2.2.trans h1.2.2⟩

theorem visitStep_regFree (env : Env) (p : Payload) (hid : Nat) (s : DState)
    (hspec : regFreeSpec (findSpec env hid) = true) :
    (visitStep env p hid s).registry = s.registry ∧
    (visitStep env p hid s).log = s.log ++ [(hid, p)] ∧
    (visitStep env p hid s).handlerErrors =
      s.handlerErrors + (if (findSpec env hid).throws then 1 else 0) := by
  obtain ⟨h1, h2, h3⟩ :=
    runActs_regFree (findSpec env hid).acts { s with log := s.log ++ [(hid, p)] } hspec
  unfold visitStep
  cases ht : (findSpec env hid).throws <;> simp_all

theorem dispatchLoop_regFree (env : Env) (k : SSEEventType) (p : Payload)
    (he : regFreeEnv env = true) :
    ∀ (fuel i : Nat) (s : DState), (s.registry k).length ≤ fuel + i →
      (dispatchLoop env k p fuel i s).registry = s.registry ∧
      (dispatchLoop env k p fuel i s).log =
        s.log ++ (idsFrom (s.registry k) i).map (fun h => (h, p)) ∧
      (dispatchLoop env k p fuel i s).handlerErrors =
        s.handlerErrors + (idsFrom (s.registry k) i).countP (fun h => (findSpec env h).throws)
  | 0, i, s, hfuel => by
    have hdrop : (s.registry k).drop i = [] :=
      List.drop_eq_nil_of_le (by simpa using hfuel)
    rw [show dispatchLoop env k p 0 i s = s from rfl]
    simp [idsFrom, hdrop]
  | fuel + 1, i, s, hfuel => by
    by_cases hi : i < (s.registry k).length
    · have hdrop : (s.registry k).drop i =
          (s.registry k)[i] :: (s.registry k).drop (i + 1) :=
        List.drop_eq_getElem_cons hi
      have hget : (s.registry k).getD i none = (s.registry k)[i] := by
        simp [List.getD, List.getElem?_eq_getElem hi]
      cases hcell : (s.registry k)[i] with
      | none =>
        have ih := dispatchLoop_regFree env k p he fuel (i + 1) s (by omega)
        have hrun : dispatchLoop env k p (fuel + 1) i s = dispatchLoop env k p fuel (i + 1) s := by
          simp only [dispatchLoop, hi, if_pos, hget, hcell]
        rw [hrun]
        refine ⟨ih.1, ?_, ?_⟩
        · rw [ih.2.1]
          simp [idsFrom, hdrop, hcell]
        · rw [ih.2.2]
          simp [idsFrom, hdrop, hcell]
      | some hid =>
        have hspec : regFreeSpec (findSpec env hid) = true := findSpec_regFree env hid he
        obtain ⟨hreg3, hlog3, herr3⟩ := visitStep_regFree env p hid s hspec
        have hlen3 : ((visitStep env p hid s).registry k).length ≤ fuel + (i + 1) := by
          rw [hreg3]; omega
        have ih := dispatchLoop_regFree env k p he fuel (i + 1) (visitStep env p hid s) hlen3
        have hrun : dispatchLoop env k p (fuel + 1) i s =
            dispatchLoop env k p fuel (i + 1) (visitStep env p hid s) := by
          simp only [dispatchLoop, hi, if_pos, hget, hcell]
        rw [hrun]
        refine ⟨ih.1.trans hreg3, ?_, ?_⟩
        · rw [ih.2.1, hreg3, hlog3]
          simp [idsFrom, hdrop, hcell]
        · rw [ih.2.2, hreg3, herr3]
          simp only [idsFrom, hdrop, hcell, List.filterMap_cons_some, List.countP_cons]
          have : (fun h => decide ((findSpec env h).throws = true)) hid =
              decide ((findSpec env hid).throws = true) := rfl
          cases ht : (findSpec env hid).throws <;> simp [ht]
          omega
    · have hdrop : (s.registry k).drop i = [] := List.drop_eq_nil_of_le (by omega)
      simp [dispatchLoop, hi, idsFrom, hdrop]

theorem dispatchEvent_regFree (env : Env) (k : SSEEventType) (p : Payload) (s : DState)
    (he : regFreeEnv env = true) :
    (dispatchEvent env k p s).registry = s.registry ∧
    (dispatchEvent env k p s).log =
      s.log ++ (idsFrom (s.registry k) 0).map (fun h => (h, p)) ∧
    (dispatchEvent env k p s).handlerErrors =
      s.handlerErrors + (idsFrom (s.registry k) 0).countP (fun h => (findSpec env h).throws) :=
  dispatchLoop_regFree env k p he _ 0 s (by omega)

theorem connectBody_inv (s : ConnState) (h : ConnInv s) : ConnInv (connectBody s) := by
  obtain ⟨h1, h2⟩ := h
  constructor
  · cases hs : s.source with
    | none =>
      rw [hs] at h1
      simp [connectBody, hs, h1]
    | some t =>
      rw [hs] at h1
      simp [connectBody, hs, h1]
  · intro t ht
    simp [connectBody] at ht ⊢
    omega

theorem step_inv (e : CEvent) (s : ConnState) (h : ConnInv s) : ConnInv (e.step s) := by
  cases e with
  | connectCall => exact connectBody_inv s h
  | openEvt => exact ⟨h.1, h.2⟩
  | errorEvt => exact ⟨h.1, h.2⟩
  | fireTimer tid =>
    exact connectBody_inv _ ⟨h.1, h.2⟩
  | reconnectCall =>
    exact connectBody_inv _ ⟨h.1, h.2⟩
  | disconnectCall =>
    obtain ⟨h1, h2⟩ := h
    cases hr : s.timeoutRef <;> cases hs : s.source <;> rw [hs] at h1 <;>
      simp [CEvent.step, hr, hs, ConnInv, h1]

theorem runEvents_inv (es : List CEvent) (s : ConnState) (h : ConnInv s) :
    ConnInv (runEvents es s) := by
  induction es generalizing s with
  | nil => exact h
  | cons e t ih =>
    exact ih (e.step s) (step_inv e s h)

theorem reachable_inv (s : ConnState) (h : ReachableConn s) : ConnInv s := by
  obtain ⟨es, hes⟩ := h
  rw [← hes]
  exact runEvents_inv es initConn ⟨rfl, by intro t ht; cases ht⟩

theorem count_pair_map (l : List Nat) (p : Payload) (a : Nat) :
    (l.map (fun g => (g, p))).count (a, p) = l.count a := by
  induction l with
  | nil => rfl
  | cons x t ih => by_cases hx : x = a <;> simp [List.count_cons, hx, ih]

theorem count_filterMap_id (es : Entries) (h : Nat) :
    (es.filterMap id).count h = es.count (some h) := by
  induction es with
  | nil => rfl
  | cons e t ih =>
    cases e with
    | none => simp [List.count_cons, ih]
    | some a =>
      by_cases hah : a = h <;> simp [List.count_cons, ih, hah]

theorem addEntry_count (es : Entries) (h : Nat) (hc : es.count (some h) ≤ 1) :
    (addEntry es h).count (some h) = 1 := by
  unfold addEntry
  by_cases hm : some h ∈ es
  · have hpos : 0 < es.count (some h) := List.count_pos_iff.mpr hm
    simp [hm]
    omega
  · have hz : es.count (some h) = 0 := List.count_eq_zero.mpr hm
    simp [hm, List.count_append, hz]

/-- C1: the claim states that `reconnect()` during a pending backoff timer
cancels that timer, resets the attempt count, connects synchronously, and
that the stale timer never also fires.  In the code `reconnect()` only
resets the attempt counter and calls `connect()` — it never calls
`clearTimeout` — so after the scenario connect/error/reconnect the timer
scheduled by the error is still pending, it is still enabled to fire, and
its firing executes `connect` a third time: a duplicate connection attempt
from the stale timer.  The reset of the attempt count and the synchronous
connect are confirmed; the cancellation is refuted. -/
theorem C1_reconnect_leaves_stale_timer :
    c1pendingState.pending = [(0, RECONNECT_DELAY_MS)] ∧
    c1afterReconnect.attempts = 0 ∧
    c1afterReconnect.connects = 2 ∧
    c1afterReconnect.pending = [(0, RECONNECT_DELAY_MS)] ∧
    (CEvent.fireTimer 0).enabled c1afterReconnect = true ∧
    ((CEvent.fireTimer 0).step c1afterReconnect).connects = 3 := by
  refine ⟨?_, ?_, ?_, ?_, ?_, ?_⟩ <;>
    simp [c1afterReconnect, c1pendingState, runEvents, CEvent.step, CEvent.enabled,
      connectBody, initConn, reconnectDelay, RECONNECT_DELAY_MS, MAX_RECONNECT_DELAY_MS,
      min_def] <;>
    norm_num

/-- C2 counterexample: the claim lists the 5th and 6th delays as exactly
15188 ms and 22781 ms, but the computed values are 15187.5 ms and
22781.25 ms. -/
theorem C2_counterexample : reconnectDelay 5 ≠ 15188 ∧ reconnectDelay 6 ≠ 22781 := by
  constructor <;>
    norm_num [reconnectDelay, RECONNECT_DELAY_MS, MAX_RECONNECT_DELAY_MS, min_def]

/-- C2 amended: the delay is the pure function
`min(3000 * 1.5 ^ (attempt - 1), 30000)` of the attempt count, and the
delays for attempts 1, 2, 3, ... are exactly 3000, 4500, 6750, 10125,
15187.5, 22781.25, 30000, 30000, ... ms, capped at 30000 ms from the 7th
attempt onward. -/
theorem C2_backoff_delays :
    reconnectDelay 1 = 3000 ∧ reconnectDelay 2 = 4500 ∧ reconnectDelay 3 = 6750 ∧
    reconnectDelay 4 = 10125 ∧ reconnectDelay 5 = 30375 / 2 ∧
    reconnectDelay 6 = 91125 / 4 ∧ ∀ n : Nat, 7 ≤ n → reconnectDelay n = 30000 := by
  refine ⟨?_, ?_, ?_, ?_, ?_, ?_, ?_⟩
  · norm_num [reconnectDelay, RECONNECT_DELAY_MS, MAX_RECONNECT_DELAY_MS, min_def]
  · norm_num [reconnectDelay, RECONNECT_DELAY_MS, MAX_RECONNECT_DELAY_MS, min_def]
  · norm_num [reconnectDelay, RECONNECT_DELAY_MS, MAX_RECONNECT_DELAY_MS, min_def]
  · norm_num [reconnectDelay, RECONNECT_DELAY_MS, MAX_RECONNECT_DELAY_MS, min_def]
  · norm_num [reconnectDelay, RECONNECT_DELAY_MS, MAX_RECONNECT_DELAY_MS, min_def]
  · norm_num [reconnectDelay, RECONNECT_DELAY_MS, MAX_RECONNECT_DELAY_MS, min_def]
  · intro n hn
    have h6 : (3 / 2 : ℚ) ^ 6 ≤ (3 / 2 : ℚ) ^ (n - 1) := by
      apply pow_le_pow_right₀ (by norm_num) (by omega)
    have hge : (30000 : ℚ) ≤ 3000 * (3 / 2 : ℚ) ^ (n - 1) := by
      have h30 : (3000 : ℚ) * (3 / 2 : ℚ) ^ 6 ≤ 3000 * (3 / 2 : ℚ) ^ (n - 1) :=
        mul_le_mul_of_nonneg_left h6 (by norm_num)
      calc (30000 : ℚ) ≤ 3000 * (3 / 2 : ℚ) ^ 6 := by norm_num
        _ ≤ 3000 * (3 / 2 : ℚ) ^ (n - 1) := h30
    simp [reconnectDelay, RECONNECT_DELAY_MS, MAX_RECONNECT_DELAY_MS, min_eq_right hge]

/-- C2 witness: the cap hypothesis is satisfiable — at attempt 7 the delay
is exactly the 30000 ms cap. -/
theorem C2_backoff_delays_witness : 7 ≤ 7 ∧ reconnectDelay 7 = 30000 :=
  ⟨by decide, C2_backoff_delays.2.2.2.2.2.2 7 (by decide)⟩

/-- C3 counterexample: with handler 0 registered before handler 1 on
`rates_updated` and handler 0 unsubscribing handler 1 during the pass,
handler 1 is invoked zero times — not exactly once as the snapshot claim
states. -/
theorem C3_counterexample :
    (dispatchEvent (c3env 0 1) SSEEventType.rates_updated cPayload
      (dInit (c3reg 0 1))).log.count (1, cPayload) = 0 ∧
    ¬ ((dispatchEvent (c3env 0 1) SSEEventType.rates_updated cPayload
      (dInit (c3reg 0 1))).log.count (1, cPayload) = 1) := by
  constructor <;> decide

/-- C3 amended: `dispatchEvent` iterates the live handler set
(ECMAScript `Set.forEach`), not a snapshot.  When handler `a` (registered
before `b` on the same kind) unsubscribes `b` during a dispatch pass, `b`
is deterministically invoked zero times in that pass — it is skipped, never
double-invoked — and `a` itself runs exactly once. -/
theorem C3_live_iteration_semantics (a b : Nat) (hab : a ≠ b) (p : Payload) :
    (dispatchEvent (c3env a b) SSEEventType.rates_updated p (dInit (c3reg a b))).log = [(a, p)] ∧
    (dispatchEvent (c3env a b) SSEEventType.rates_updated p (dInit (c3reg a b))).log.count
      (b, p) = 0 := by
  have hmain :
      (dispatchEvent (c3env a b) SSEEventType.rates_updated p (dInit (c3reg a b))).log
        = [(a, p)] := by
    simp [dispatchEvent, dispatchLoop, totalSubs, c3env, c3reg, dInit, visitStep, findSpec,
      runActs, runAct, offReg, delEntry, addEntry, List.getD, hab, List.find?]
  refine ⟨hmain, ?_⟩
  rw [hmain]
  simp [List.count_cons, Ne.symm hab]

/-- C3 witness: the amended live-iteration behaviour at handlers 0 and 1. -/
theorem C3_live_iteration_semantics_witness :
    (0 : Nat) ≠ 1 ∧
    (dispatchEvent (c3env 0 1) SSEEventType.rates_updated (Payload.client "w")
      (dInit (c3reg 0 1))).log = [(0, Payload.client "w")] :=
  ⟨by decide, (C3_live_iteration_semantics 0 1 (by decide) (Payload.client "w")).1⟩

/-- C4 counterexample: dispatching the specified `alert_triggered` payload
issues no cache-invalidation request at all (the count is 0, not 1): the
alert consumer only sends a notification, and the summary query key is
invalidated only by the `rates_updated` consumer. -/
theorem C4_counterexample :
    ¬ ((dispatchEvent (c4env 0) SSEEventType.alert_triggered
      (Payload.alert c4payload) (dInit c4reg)).invalidations.length = 1) := by
  decide

/-- C4 amended: dispatching `alert_triggered` with payload alert 7,
`rate_above`, threshold 150, current rate 151.2, `JPY_CNY` (permission
granted, notifications enabled) issues exactly one notification request
whose dedupe tag contains the digit 7, and zero cache-invalidation
requests. -/
theorem C4_alert_consumer_effects (now : Nat) :
    (dispatchEvent (c4env now) SSEEventType.alert_triggered (Payload.alert c4payload)
      (dInit c4reg)).invalidations = [] ∧
    (dispatchEvent (c4env now) SSEEventType.alert_triggered (Payload.alert c4payload)
      (dInit c4reg)).notifications = ["alert-7-" ++ toString now] ∧
    '7' ∈ ("alert-7-" ++ toString now).data := by
  refine ⟨?_, ?_, ?_⟩
  · simp [dispatchEvent, dispatchLoop, totalSubs, c4env, c4reg, dInit, visitStep, findSpec,
      runActs, runAct, alertHandlerSpec, ratesHandlerSpec, sendAlertTag, c4payload, List.getD,
      List.find?]
  · have h7 : "alert-" ++ toString (7 : Int) ++ "-" = "alert-7-" := by rfl
    simp only [dispatchEvent, dispatchLoop, totalSubs, c4env, c4reg, dInit, visitStep, findSpec,
      runActs, runAct, alertHandlerSpec, ratesHandlerSpec, sendAlertTag, c4payload, List.getD]
    rw [← h7]
    simp [dispatchEvent, dispatchLoop, totalSubs, c4env, c4reg, dInit, visitStep, findSpec,
      runActs, runAct, alertHandlerSpec, ratesHandlerSpec, sendAlertTag, c4payload, List.getD,
      List.find?]
  · rw [String.data_append]
    exact List.mem_append_left _ (by decide)

/-- C5: when the subscribed handlers of a kind do not mutate the registry
and one of them (`tid`) throws synchronously, the dispatch still invokes
every subscribed handler exactly once with the identical payload, the
thrown error is caught and logged (`handlerErrors` grows), the registry is
untouched, and nothing escapes to the connection manager — a frame dispatch
(`processFrame` with a parsed payload) leaves the connection state
unchanged. -/
theorem C5_handler_isolation (env : Env) (k : SSEEventType) (p : Payload) (s : DState)
    (tid : Nat)
    (he : regFreeEnv env = true)
    (hnd : (idsFrom (s.registry k) 0).Nodup)
    (_hlen : 2 ≤ (idsFrom (s.registry k) 0).length)
    (htm : tid ∈ idsFrom (s.registry k) 0)
    (hthrow : (findSpec env tid).throws = true) :
    (dispatchEvent env k p s).registry = s.registry ∧
    (dispatchEvent env k p s).log =
      s.log ++ (idsFrom (s.registry k) 0).map (fun h => (h, p)) ∧
    (∀ h2, h2 ∈ idsFrom (s.registry k) 0 →
      ((dispatchEvent env k p s).log.drop s.log.length).count (h2, p) = 1) ∧
    s.handlerErrors + 1 ≤ (dispatchEvent env k p s).handlerErrors ∧
    (∀ fs : FullState, (processFrame env k (some p) fs).conn = fs.conn) := by
  obtain ⟨h1, h2, h3⟩ := dispatchEvent_regFree env k p s he
  refine ⟨h1, h2, ?_, ?_, fun fs => rfl⟩
  · intro h2id hmem
    rw [h2, List.drop_left, count_pair_map]
    exact List.count_eq_one_of_mem hnd hmem
  · rw [h3]
    have hpos : 0 < (idsFrom (s.registry k) 0).countP (fun h => (findSpec env h).throws) :=
      List.countP_pos_iff.mpr ⟨tid, htm, by simp [hthrow]⟩
    omega

/-- C5 witness: handler 0 throws, handler 1 is plain; handler 1 is still
invoked exactly once and the error is logged. -/
theorem C5_handler_isolation_witness :
    regFreeEnv c5env = true ∧
    ((dispatchEvent c5env SSEEventType.rates_updated cPayload (dInit c5reg)).log.drop
      (dInit c5reg).log.length).count (1, cPayload) = 1 ∧
    (dInit c5reg).handlerErrors + 1 ≤
      (dispatchEvent c5env SSEEventType.rates_updated cPayload (dInit c5reg)).handlerErrors := by
  refine ⟨by decide, ?_, ?_⟩
  · exact (C5_handler_isolation c5env SSEEventType.rates_updated cPayload (dInit c5reg) 0
      (by decide) (by decide) (by decide) (by decide) (by decide)).2.2.1 1 (by decide)
  · exact (C5_handler_isolation c5env SSEEventType.rates_updated cPayload (dInit c5reg) 0
      (by decide) (by decide) (by decide) (by decide) (by decide)).2.2.2.1

/-- C6: a frame whose payload fails to parse (`JSON.parse` throws, modelled
by `none`) is discarded: the parse-error log grows by one, and nothing else
changes — no handler is invoked (`log` unchanged), the registry is
untouched, `isConnected` is unchanged, and no transport is closed (`live`
and the whole connection state unchanged). -/
theorem C6_parse_failure_isolated (env : Env) (k : SSEEventType) (fs : FullState) :
    (processFrame env k none fs).conn = fs.conn ∧
    (processFrame env k none fs).conn.isConnected = fs.conn.isConnected ∧
    (processFrame env k none fs).conn.live = fs.conn.live ∧
    (processFrame env k none fs).disp = fs.disp ∧
    (processFrame env k none fs).disp.log = fs.disp.log ∧
    (processFrame env k none fs).disp.registry = fs.disp.registry ∧
    (processFrame env k none fs).parseErrors = fs.parseErrors + 1 :=
  ⟨rfl, rfl, rfl, rfl, rfl, rfl, rfl⟩

/-- C7: a successful transport open (`onopen`) resets the attempt counter
to 0 and sets `isConnected`; the first transport error after it therefore
runs with attempt count 1 and schedules exactly the base delay of 3000 ms. -/
theorem C7_open_resets_backoff (s : ConnState)
    (_hen : CEvent.openEvt.enabled s = true) :
    (CEvent.openEvt.step s).attempts = 0 ∧
    (CEvent.openEvt.step s).isConnected = true ∧
    (CEvent.errorEvt.step (CEvent.openEvt.step s)).attempts = 1 ∧
    (CEvent.errorEvt.step (CEvent.openEvt.step s)).pending =
      s.pending ++ [(s.nextTimer, RECONNECT_DELAY_MS)] := by
  refine ⟨rfl, rfl, rfl, ?_⟩
  have h1 : reconnectDelay 1 = RECONNECT_DELAY_MS := by
    norm_num [reconnectDelay, RECONNECT_DELAY_MS, MAX_RECONNECT_DELAY_MS, min_def]
  simp [CEvent.step, h1]

/-- C7 witness: after mounting (`connect()`), the open event is enabled and
resets the counter. -/
theorem C7_open_resets_backoff_witness :
    CEvent.openEvt.enabled (CEvent.connectCall.step initConn) = true ∧
    (CEvent.openEvt.step (CEvent.connectCall.step initConn)).attempts = 0 ∧
    (CEvent.openEvt.step (CEvent.connectCall.step initConn)).isConnected = true := by
  refine ⟨by decide, ?_, ?_⟩
  · exact (C7_open_resets_backoff (CEvent.connectCall.step initConn) (by decide)).1
  · exact (C7_open_resets_backoff (CEvent.connectCall.step initConn) (by decide)).2.1

/-- C8: in every reachable connection-manager state there is at most one
live transport, and a `connect()` call — from any state, however rapidly
repeated — first closes the existing transport: afterwards exactly the
fresh transport is live and the previously held transport is not. -/
theorem C8_at_most_one_transport (s : ConnState) (h : ReachableConn s) :
    s.live.length ≤ 1 ∧
    (CEvent.connectCall.step s).live = [s.nextSource] ∧
    (∀ t, s.source = some t → t ∉ (CEvent.connectCall.step s).live) := by
  obtain ⟨h1, h2⟩ := reachable_inv s h
  refine ⟨?_, ?_, ?_⟩
  · rw [h1]; cases s.source <;> simp
  · cases hs : s.source with
    | none => rw [hs] at h1; simp [CEvent.step, connectBody, hs, h1]
    | some t => rw [hs] at h1; simp [CEvent.step, connectBody, hs, h1]
  · intro t ht
    have hlt := h2 t ht
    cases hs : s.source with
    | none => rw [hs] at ht; cases ht
    | some u =>
      rw [hs] at ht h1
      simp [CEvent.step, connectBody, hs, h1]
      omega

/-- C8 witness: two rapid `connect()` calls still leave at most one live
transport, and the second call replaced the first transport. -/
theorem C8_at_most_one_transport_witness :
    (runEvents [CEvent.connectCall, CEvent.connectCall] initConn).live.length ≤ 1 ∧
    (CEvent.connectCall.step (runEvents [CEvent.connectCall, CEvent.connectCall]
      initConn)).live =
      [(runEvents [CEvent.connectCall, CEvent.connectCall] initConn).nextSource] := by
  refine ⟨?_, ?_⟩
  · exact (C8_at_most_one_transport _ ⟨[CEvent.connectCall, CEvent.connectCall], rfl⟩).1
  · exact (C8_at_most_one_transport _ ⟨[CEvent.connectCall, CEvent.connectCall], rfl⟩).2.1

/-- C9: subscribing the same handler reference to the same kind twice is
idempotent — in any state whose entry list holds the handler at most once
(the invariant `Set` semantics maintain), after `on k h; on k h` the live
entries contain `h` exactly once, and a dispatch of that kind (with
registry-preserving handlers) invokes `h` exactly once, never twice. -/
theorem C9_subscribe_idempotent (env : Env) (k : SSEEventType) (p : Payload) (s : DState)
    (h : Nat)
    (he : regFreeEnv env = true)
    (hcount : (s.registry k).count (some h) ≤ 1) :
    (idsFrom ((onReg k h (onReg k h s)).registry k) 0).count h = 1 ∧
    ((dispatchEvent env k p (onReg k h (onReg k h s))).log.drop
      (onReg k h (onReg k h s)).log.length).count (h, p) = 1 := by
  have hreg : (onReg k h (onReg k h s)).registry k
      = addEntry (addEntry (s.registry k) h) h := by
    simp [onReg]
  have hc1 : (addEntry (s.registry k) h).count (some h) = 1 := addEntry_count _ h hcount
  have hc2 : (addEntry (addEntry (s.registry k) h) h).count (some h) = 1 :=
    addEntry_count _ h (by omega)
  have hids : (idsFrom ((onReg k h (onReg k h s)).registry k) 0).count h = 1 := by
    rw [idsFrom, List.drop_zero, hreg, count_filterMap_id]
    exact hc2
  refine ⟨hids, ?_⟩
  obtain ⟨h1, h2, h3⟩ := dispatchEvent_regFree env k p (onReg k h (onReg k h s)) he
  rw [h2, List.drop_left, count_pair_map]
  exact hids

/-- C9 witness: double-subscribing handler 5 on an empty registry and
dispatching invokes it exactly once. -/
theorem C9_subscribe_idempotent_witness :
    regFreeEnv [] = true ∧
    ((dispatchEvent [] SSEEventType.connected cPayload
      (onReg SSEEventType.connected 5 (onReg SSEEventType.connected 5
        (dInit (fun _ => []))))).log.drop
      (onReg SSEEventType.connected 5 (onReg SSEEventType.connected 5
        (dInit (fun _ => [])))).log.length).count (5, cPayload) = 1 := by
  refine ⟨by decide, ?_⟩
  exact (C9_subscribe_idempotent [] SSEEventType.connected cPayload (dInit (fun _ => [])) 5
    (by decide) (by decide)).2

/-- C10: the alert consumer gates notifications on the local
`notificationEnabled` setting in addition to browser permission: a dispatch
of `alert_triggered` to the subscribed alert consumer issues the
notification exactly when both flags are set — in particular none when the
setting is off, even with permission granted — and never issues a cache
invalidation. -/
theorem C10_notification_gating (isGranted notificationEnabled : Bool)
    (a : AlertPayload) (now : Nat) (s : DState)
    (hreg : s.registry SSEEventType.alert_triggered = [some 0]) :
    (dispatchEvent (c10env isGranted notificationEnabled a now) SSEEventType.alert_triggered
      (Payload.alert a) s).notifications =
      s.notifications ++
        (if isGranted && notificationEnabled then
          ["alert-" ++ toString a.alert_id ++ "-" ++ toString now] else []) ∧
    (dispatchEvent (c10env isGranted notificationEnabled a now) SSEEventType.alert_triggered
      (Payload.alert a) s).invalidations = s.invalidations ∧
    (notificationEnabled = false →
      (dispatchEvent (c10env isGranted notificationEnabled a now) SSEEventType.alert_triggered
        (Payload.alert a) s).notifications = s.notifications) := by
  have hmain :
      (dispatchEvent (c10env isGranted notificationEnabled a now) SSEEventType.alert_triggered
        (Payload.alert a) s).notifications =
        s.notifications ++
          (if isGranted && notificationEnabled then
            ["alert-" ++ toString a.alert_id ++ "-" ++ toString now] else []) ∧
      (dispatchEvent (c10env isGranted notificationEnabled a now) SSEEventType.alert_triggered
        (Payload.alert a) s).invalidations = s.invalidations := by
    cases hge : isGranted && notificationEnabled <;>
      constructor <;>
        simp [dispatchEvent, dispatchLoop, totalSubs, c10env, visitStep, findSpec, runActs,
          runAct, alertHandlerSpec, sendAlertTag, hreg, hge, List.getD, List.find?]
  refine ⟨hmain.1, hmain.2, ?_⟩
  intro hef
  rw [hmain.1, hef]
  simp

/-- C10 witness: permission granted but the local setting disabled — no
notification is issued. -/
theorem C10_notification_gating_witness :
    (dispatchEvent (c10env true false c4payload 0) SSEEventType.alert_triggered
      (Payload.alert c4payload) (dInit c10reg)).notifications =
      (dInit c10reg).notifications :=
  (C10_notification_gating true false c4payload 0 (dInit c10reg) (by decide)).2.2 rfl
